import Mathlib

/-!
# Verification of the mcp-perplexity-pro port-discovery and session layer

Shallow embedding of the core of the repository:

* `src/src/stdio-bridge.ts` (port-utils part): `isPortAvailable`,
  `checkMcpServerHealth`, `discoverMcpPort`, `MCP_PORT_RANGE`;
* `src/src/launcher.ts`: `detectStdioAvailability`, transport-mode
  resolution and the HTTP-mode discovery fallback in `main`;
* `src/unnamed/part_006` (HTTP streaming server): the `/mcp` request
  handler's session management and `cleanupExpiredSessions`.

Network and process effects are modelled by explicit environment
parameters (per-port health and availability oracles, the outcome of a
health probe, the outcome of the SDK transport initialization, an oracle
for whether closing a session's server fails).  Everything else is a
direct translation of the TypeScript.
-/

namespace McpPerplexityPro

/-! ## Port prober (`src/src/stdio-bridge.ts`, port-utils part) -/

/-- Health states returned by `checkMcpServerHealth`. -/
inductive Health where
  | healthy
  | unhealthy
  | notRunning
deriving DecidableEq, Repr

/-- Outcome of the `fetch` of `http://localhost:port/health`:
either a reachable HTTP response (with `ok` = status in 2xx, and the
`status` field of the parsed JSON body, absent when the body has none),
or a connection failure / timeout (the `catch` path). -/
inductive ProbeOutcome where
  | response (ok : Bool) (status : Option String)
  | failure
deriving DecidableEq, Repr

/-- Embedding of `checkMcpServerHealth` (stdio-bridge.ts:212-232).  The network
outcome and the follow-up `isPortAvailable` bind test are environment
parameters.  The TypeScript promises never to reject: every branch
resolves to one of the three states, which the embedding reflects by
being a total function into `Health`. -/
def checkMcpServerHealth (outcome : ProbeOutcome) (portFree : Bool) : Health :=
  match outcome with
  | .response ok status =>
      if ok then
        if status = some "healthy" then .healthy else .unhealthy
      else
        .unhealthy
  | .failure =>
      if portFree then .notRunning else .unhealthy

/-! ## Port discovery (`discoverMcpPort`) -/

/-- The fixed scan range `MCP_PORT_RANGE = { start: 8124, end: 8133 }`
(stdio-bridge.ts:186), enumerated ascending as the `for` loops do. -/
def mcpPortRange : List Nat := List.range' 8124 10

/-- Structure `PortDiscoveryResult` (stdio-bridge.ts:188-192). -/
structure PortDiscoveryResult where
  port : Nat
  isExistingServer : Bool
  healthStatus : Option Health := none
deriving DecidableEq, Repr

/-- The per-port environment seen by `discoverMcpPort`: what
`checkMcpServerHealth` resolves to on each port, and what
`isPortAvailable` resolves to on each port. -/
structure PortEnv where
  health : Nat → Health
  free : Nat → Bool

/-- JavaScript truthiness of the optional `preferredPort` number:
`undefined` and `0` are falsy, every other port number is truthy. -/
def jsTruthyPort : Option Nat → Bool
  | some p => p != 0
  | none => false

/-- Embedding of `discoverMcpPort` (stdio-bridge.ts:242-300), with the probes
abstracted into `env`.  The two `if (preferredPort ...)` guards use
JavaScript truthiness, hence `jsTruthyPort`. -/
def discoverMcpPort (env : PortEnv) (preferredPort : Option Nat) :
    Except String PortDiscoveryResult :=
  let pref := preferredPort.getD 0
  if jsTruthyPort preferredPort && (env.health pref == .healthy) then
    .ok { port := pref, isExistingServer := true, healthStatus := some .healthy }
  else
    match mcpPortRange.find? (fun port => env.health port == .healthy) with
    | some port =>
        .ok { port := port, isExistingServer := true, healthStatus := some .healthy }
    | none =>
        if jsTruthyPort preferredPort && env.free pref then
          .ok { port := pref, isExistingServer := false }
        else
          match mcpPortRange.find? (fun port => env.free port) with
          | some port => .ok { port := port, isExistingServer := false }
          | none =>
              .error ("No available ports in MCP range 8124-8133. " ++
                "Please free up a port or use a different range.")

/-- The discovery algorithm exactly as the specification words it
(steps 1-5 of §4.2): step 1 and step 3 fire whenever `preferredPort`
is *given*, with no further condition.  Kept separate from
`discoverMcpPort` so the two can be compared. -/
def discoverSpecAlg (env : PortEnv) (preferredPort : Option Nat) :
    Except String PortDiscoveryResult :=
  match preferredPort with
  | some p =>
      if env.health p = .healthy then
        .ok { port := p, isExistingServer := true, healthStatus := some .healthy }
      else
        match mcpPortRange.find? (fun port => env.health port == .healthy) with
        | some port =>
            .ok { port := port, isExistingServer := true, healthStatus := some .healthy }
        | none =>
            if env.free p then
              .ok { port := p, isExistingServer := false }
            else
              match mcpPortRange.find? (fun port => env.free port) with
              | some port => .ok { port := port, isExistingServer := false }
              | none =>
                  .error ("No available ports in MCP range 8124-8133. " ++
                    "Please free up a port or use a different range.")
  | none =>
      match mcpPortRange.find? (fun port => env.health port == .healthy) with
      | some port =>
          .ok { port := port, isExistingServer := true, healthStatus := some .healthy }
      | none =>
          match mcpPortRange.find? (fun port => env.free port) with
          | some port => .ok { port := port, isExistingServer := false }
          | none =>
              .error ("No available ports in MCP range 8124-8133. " ++
                "Please free up a port or use a different range.")

/-! ## Process launcher (`src/src/launcher.ts`) -/

/-- The `--transport=`/`--mode=` selection parsed by `parseArgs`. -/
inductive TransportMode where
  | stdio
  | http
  | auto
deriving DecidableEq, Repr

/-- The mode the launcher actually runs in after auto-detection. -/
inductive ResolvedMode where
  | stdio
  | http
deriving DecidableEq, Repr

/-- The `--http-client` selection parsed by `parseArgs`. -/
inductive ClientMode where
  | stdio
  | http
deriving DecidableEq, Repr

/-- Embedding of `detectStdioAvailability` (launcher.ts:172-175):
`process.stdin.isTTY === false && process.stdout.isTTY === false`.
Node's `isTTY` property is `true` on a stream attached to a terminal
and `undefined` on every other stream — it is never `false` — so each
flag is modelled as `Option Bool` with `none` for `undefined`, and the
strict `=== false` comparison is equality with `some false`. -/
def detectStdioAvailability (stdinIsTTY stdoutIsTTY : Option Bool) : Bool :=
  (stdinIsTTY == some false) && (stdoutIsTTY == some false)

/-- Transport-mode resolution in `main` (launcher.ts:251-262):
explicit `stdio`/`http` win; `auto` consults `detectStdioAvailability`. -/
def resolveTransportMode (tm : TransportMode) (stdinIsTTY stdoutIsTTY : Option Bool) :
    ResolvedMode :=
  match tm with
  | .stdio => .stdio
  | .http => .http
  | .auto =>
      if detectStdioAvailability stdinIsTTY stdoutIsTTY then .stdio else .http

/-- What the launcher ends up doing after the transport mode is resolved
(launcher.ts:264-296). -/
inductive LaunchAction where
  | startStdioServer
  | printUrlAndExit (port : Nat)
  | logDeferralAndExit (port : Nat)
  | startHttpServer (port : Nat)
deriving DecidableEq, Repr

/-- The HTTP branch of `main` (launcher.ts:268-295): on a successful
discovery, defer to an existing server (printing the URL in http client
mode, logging in stdio client mode) or start a new server on the
discovered port; on a discovery exception, fall back to
`{ port: preferredPort, isExistingServer: false }` and start the server
on that port.  The discovery outcome is an environment parameter. -/
def httpModeLaunch (clientMode : ClientMode) (preferredPort : Nat)
    (outcome : Except String PortDiscoveryResult) : LaunchAction :=
  match outcome with
  | .ok discovery =>
      if discovery.isExistingServer then
        match clientMode with
        | .http => .printUrlAndExit discovery.port
        | .stdio => .logDeferralAndExit discovery.port
      else
        .startHttpServer discovery.port
  | .error _ =>
      let discovery : PortDiscoveryResult :=
        { port := preferredPort, isExistingServer := false }
      .startHttpServer discovery.port

/-- The transport dispatch of `main` (launcher.ts:264-296): stdio mode
starts the stdio server directly and never touches the port logic; HTTP
mode runs `httpModeLaunch`. -/
def mainLaunch (tm : TransportMode) (clientMode : ClientMode)
    (preferredPort : Nat) (stdinIsTTY stdoutIsTTY : Option Bool)
    (outcome : Except String PortDiscoveryResult) : LaunchAction :=
  match resolveTransportMode tm stdinIsTTY stdoutIsTTY with
  | .stdio => .startStdioServer
  | .http => httpModeLaunch clientMode preferredPort outcome

/-! ## Session manager (`src/unnamed/part_006`, `createHTTPStreamingServer`) -/

/-- Constant `SESSION_TIMEOUT_MS = 30 * 60 * 1000` (part_006:263).  Timestamps
are JavaScript millisecond numbers; modelled as integers so that
`now - lastActivity` is an honest subtraction. -/
def SESSION_TIMEOUT_MS : Int := 30 * 60 * 1000

/-- The timestamp bookkeeping of `SessionData` (part_006:267-272).  The
`server`/`transport` handles carry no state the claims depend on beyond
the close oracle threaded separately. -/
structure SessionRec where
  lastActivity : Int
  createdAt : Int
deriving DecidableEq, Repr

/-- The `sessions` record, as the association list of its entries
(`Record<string, SessionData>`; JavaScript records have unique keys). -/
abbrev SessionTable := List (String × SessionRec)

/-- Key lookup in the table: `sessions[sessionId]`. -/
def lookupSession (table : SessionTable) (sid : String) : Option SessionRec :=
  (table.find? (fun e => e.1 = sid)).map (·.2)

/-- Result of `cleanupExpiredSessions` (part_006:488-519), together
with the table that the mutation leaves behind and the log lines the
close failures produce. -/
structure SweepResult where
  removed : Nat
  remaining : Nat
  table : SessionTable
  closeFailureLog : List String
deriving Repr

/-- The expiry test of the sweep's first pass (part_006:493-494):
`inactiveTime > SESSION_TIMEOUT_MS` with `inactiveTime = now - lastActivity`. -/
def isExpired (now : Int) (e : String × SessionRec) : Bool :=
  SESSION_TIMEOUT_MS < now - e.2.lastActivity

/-- Embedding of `cleanupExpiredSessions` (part_006:488-519).  First pass collects
the ids whose inactive time strictly exceeds `SESSION_TIMEOUT_MS`;
second pass closes each such session's server — a close failure is
logged and swallowed (`.catch` plus `try`/`catch`), never thrown — and
deletes the entry.  `closeFails` is the oracle for whether closing a
given session's server fails. -/
def cleanupExpiredSessions (closeFails : String → Bool) (now : Int)
    (sessions : SessionTable) : SweepResult :=
  let expiredSessions : List String :=
    (sessions.filter (isExpired now)).map (·.1)
  let closeFailureLog : List String :=
    expiredSessions.filterMap (fun sid =>
      if closeFails sid then some ("Error closing server for session " ++ sid) else none)
  let table : SessionTable :=
    sessions.filter (fun e => !(expiredSessions.contains e.1))
  { removed := expiredSessions.length
    remaining := table.length
    table := table
    closeFailureLog := closeFailureLog }

/-- The responses the `/mcp` handler can take before delegating to the
SDK transport (part_006:560-629). -/
inductive McpResponse where
  /-- An existing session's transport handles the request. -/
  | routedExisting (sid : String)
  /-- A freshly constructed server/transport pair handles the request. -/
  | routedNew
  /-- The 404 JSON-RPC-style error body
  `{jsonrpc: "2.0", error: {code, message}, id: null}`. -/
  | sessionNotFound (status : Nat) (code : Int) (message : String)
  /-- The 400 `{error, message}` body. -/
  | sessionRequired (status : Nat) (error message : String)
deriving DecidableEq, Repr

/-- JavaScript truthiness of the optional `mcp-session-id` header value:
`undefined` and the empty string are falsy. -/
def jsTruthySessionId : Option String → Bool
  | some s => s != ""
  | none => false

/-- The `/mcp` handler (part_006:560-629), one request against the
current table.  `initOutcome` is the SDK transport's initialization
outcome for the new-session branch: `some newSessionId` when the
handshake succeeds and `onsessioninitialized` fires with the generated
id, `none` when initialization does not complete (the callback never
fires and nothing is stored).  Returns the response taken and the table
after the request. -/
def handleMcp (sessions : SessionTable) (sessionId : Option String)
    (method : String) (now : Int) (initOutcome : Option String) :
    McpResponse × SessionTable :=
  let sid := sessionId.getD ""
  if jsTruthySessionId sessionId && (lookupSession sessions sid).isSome then
    (.routedExisting sid,
      sessions.map (fun e =>
        if e.1 = sid then (e.1, { e.2 with lastActivity := now }) else e))
  else if jsTruthySessionId sessionId && !(lookupSession sessions sid).isSome then
    (.sessionNotFound 404 (-32000) "Session expired or not found. Please reinitialize.",
      sessions)
  else if method = "POST" then
    (.routedNew,
      match initOutcome with
      | some newSessionId =>
          sessions ++ [(newSessionId, { lastActivity := now, createdAt := now })]
      | none => sessions)
  else
    (.sessionRequired 400 "Session required" "POST request required to initialize session",
      sessions)

/-! ## Helper lemmas -/

/-- In a table with pairwise-distinct keys (JavaScript record semantics),
an entry is determined by its key. -/
theorem eq_of_keys_nodup {l : SessionTable}
    (hnd : (l.map Prod.fst).Nodup) {e x : String × SessionRec}
    (he : e ∈ l) (hx : x ∈ l) (hfst : x.1 = e.1) : x = e := by
  induction l with
  | nil => cases he
  | cons a t ih =>
      rw [List.map_cons, List.nodup_cons] at hnd
      obtain ⟨hna, hnt⟩ := hnd
      rcases List.mem_cons.mp he with he' | he' <;>
        rcases List.mem_cons.mp hx with hx' | hx'
      · rw [he', hx']
      · exact absurd (List.mem_map.mpr ⟨x, hx', he' ▸ hfst⟩) hna
      · exact absurd (List.mem_map.mpr ⟨e, he', hx' ▸ hfst.symm⟩) hna
      · exact ih hnt he' hx'

/-- A filter and its complement partition the list's length. -/
theorem filter_length_partition (p : (String × SessionRec) → Bool)
    (l : SessionTable) :
    (l.filter p).length + (l.filter (fun e => !(p e))).length = l.length := by
  induction l with
  | nil => rfl
  | cons a t ih =>
      cases h : p a <;> simp [List.filter_cons, h] <;> omega

/-- With distinct keys, the sweep's delete-by-collected-id pass leaves
exactly the entries that are not expired. -/
theorem cleanup_table_eq_filter (closeFails : String → Bool) (now : Int)
    (sessions : SessionTable) (hnd : (sessions.map Prod.fst).Nodup) :
    (cleanupExpiredSessions closeFails now sessions).table =
      sessions.filter (fun e => !(isExpired now e)) := by
  show sessions.filter _ = _
  apply List.filter_congr
  intro e he
  suffices h :
      ((sessions.filter (isExpired now)).map (·.1)).contains e.1 = isExpired now e by
    rw [h]
  cases hval : isExpired now e with
  | true =>
      exact List.elem_iff.mpr
        (List.mem_map.mpr ⟨e, List.mem_filter.mpr ⟨he, hval⟩, rfl⟩)
  | false =>
      refine Bool.eq_false_iff.mpr fun hc => ?_
      obtain ⟨x, hxmem, hxfst⟩ := List.mem_map.mp (List.elem_iff.mp hc)
      obtain ⟨hxs, hxe⟩ := List.mem_filter.mp hxmem
      rw [eq_of_keys_nodup hnd he hxs hxfst] at hxe
      rw [hval] at hxe
      cases hxe

/-- Every entry surviving a sweep is not expired at that sweep's time
(true even without the distinct-keys assumption). -/
theorem mem_cleanup_table_not_expired (closeFails : String → Bool) (now : Int)
    (sessions : SessionTable) {e : String × SessionRec}
    (he : e ∈ (cleanupExpiredSessions closeFails now sessions).table) :
    isExpired now e = false := by
  obtain ⟨hmem, hkeep⟩ := List.mem_filter.mp he
  refine Bool.eq_false_iff.mpr fun hx => ?_
  have hc : ((sessions.filter (isExpired now)).map (·.1)).contains e.1 = true :=
    List.elem_iff.mpr (List.mem_map.mpr ⟨e, List.mem_filter.mpr ⟨hmem, hx⟩, rfl⟩)
  rw [hc] at hkeep
  cases hkeep

/-! ## Claim theorems -/

/-- C3: for every session table (with the record's distinct keys) and
every time `now`, the sweep removes exactly the sessions whose idle
duration `now - lastActivity` exceeds the 30-minute timeout, retains
every session whose idle duration is within the timeout, reports the
count of removed sessions and the count of remaining sessions, and a
failure while closing a removed session's server (the `closeFails`
oracle) never changes the outcome — it is only logged, never
propagated, as the sweep is a total function for every oracle. -/
theorem cleanupExpiredSessions_spec (closeFails closeFails' : String → Bool)
    (now : Int) (sessions : SessionTable)
    (hnd : (sessions.map Prod.fst).Nodup) :
    (∀ e ∈ sessions,
      e ∈ (cleanupExpiredSessions closeFails now sessions).table ↔
        now - e.2.lastActivity ≤ SESSION_TIMEOUT_MS)
    ∧ (∀ e ∈ (cleanupExpiredSessions closeFails now sessions).table, e ∈ sessions)
    ∧ (cleanupExpiredSessions closeFails now sessions).removed
        + (cleanupExpiredSessions closeFails now sessions).remaining
        = sessions.length
    ∧ (cleanupExpiredSessions closeFails now sessions).remaining
        = (cleanupExpiredSessions closeFails now sessions).table.length
    ∧ (cleanupExpiredSessions closeFails' now sessions).removed
        = (cleanupExpiredSessions closeFails now sessions).removed
    ∧ (cleanupExpiredSessions closeFails' now sessions).remaining
        = (cleanupExpiredSessions closeFails now sessions).remaining
    ∧ (cleanupExpiredSessions closeFails' now sessions).table
        = (cleanupExpiredSessions closeFails now sessions).table := by
  have htbl := cleanup_table_eq_filter closeFails now sessions hnd
  refine ⟨?_, ?_, ?_, rfl, rfl, rfl, rfl⟩
  · intro e he
    rw [htbl, List.mem_filter]
    constructor
    · rintro ⟨-, hkeep⟩
      have : ¬ (SESSION_TIMEOUT_MS < now - e.2.lastActivity) := by
        intro hlt
        rw [show isExpired now e = true by simpa [isExpired] using hlt] at hkeep
        cases hkeep
      exact not_lt.mp this
    · intro hle
      exact ⟨he, by simp [isExpired, not_lt.mpr hle]⟩
  · intro e he
    exact (List.mem_filter.mp (htbl ▸ he)).1
  · show ((sessions.filter (isExpired now)).map (·.1)).length + _ = _
    rw [List.length_map]
    have hrem :
        (cleanupExpiredSessions closeFails now sessions).remaining
          = (sessions.filter (fun e => !(isExpired now e))).length := by
      show (cleanupExpiredSessions closeFails now sessions).table.length = _
      rw [htbl]
    rw [hrem]
    exact filter_length_partition (isExpired now) sessions

/-- C3 witness: a two-entry table at a concrete time, one entry idle
for 31 minutes and one fresh, with a close oracle that fails. -/
theorem cleanupExpiredSessions_spec_witness :
    ((([("old", ⟨0, 0⟩), ("new", ⟨1860000, 0⟩)] : SessionTable).map Prod.fst).Nodup)
    ∧ ((∀ e ∈ ([("old", ⟨0, 0⟩), ("new", ⟨1860000, 0⟩)] : SessionTable),
        e ∈ (cleanupExpiredSessions (fun _ => true) 1860000
              [("old", ⟨0, 0⟩), ("new", ⟨1860000, 0⟩)]).table ↔
          1860000 - e.2.lastActivity ≤ SESSION_TIMEOUT_MS)
      ∧ (∀ e ∈ (cleanupExpiredSessions (fun _ => true) 1860000
              [("old", ⟨0, 0⟩), ("new", ⟨1860000, 0⟩)]).table,
          e ∈ ([("old", ⟨0, 0⟩), ("new", ⟨1860000, 0⟩)] : SessionTable))
      ∧ (cleanupExpiredSessions (fun _ => true) 1860000
            [("old", ⟨0, 0⟩), ("new", ⟨1860000, 0⟩)]).removed
          + (cleanupExpiredSessions (fun _ => true) 1860000
              [("old", ⟨0, 0⟩), ("new", ⟨1860000, 0⟩)]).remaining
          = ([("old", ⟨0, 0⟩), ("new", ⟨1860000, 0⟩)] : SessionTable).length
      ∧ (cleanupExpiredSessions (fun _ => true) 1860000
            [("old", ⟨0, 0⟩), ("new", ⟨1860000, 0⟩)]).remaining
          = (cleanupExpiredSessions (fun _ => true) 1860000
              [("old", ⟨0, 0⟩), ("new", ⟨1860000, 0⟩)]).table.length
      ∧ (cleanupExpiredSessions (fun _ => false) 1860000
            [("old", ⟨0, 0⟩), ("new", ⟨1860000, 0⟩)]).removed
          = (cleanupExpiredSessions (fun _ => true) 1860000
              [("old", ⟨0, 0⟩), ("new", ⟨1860000, 0⟩)]).removed
      ∧ (cleanupExpiredSessions (fun _ => false) 1860000
            [("old", ⟨0, 0⟩), ("new", ⟨1860000, 0⟩)]).remaining
          = (cleanupExpiredSessions (fun _ => true) 1860000
              [("old", ⟨0, 0⟩), ("new", ⟨1860000, 0⟩)]).remaining
      ∧ (cleanupExpiredSessions (fun _ => false) 1860000
            [("old", ⟨0, 0⟩), ("new", ⟨1860000, 0⟩)]).table
          = (cleanupExpiredSessions (fun _ => true) 1860000
              [("old", ⟨0, 0⟩), ("new", ⟨1860000, 0⟩)]).table) :=
  ⟨by decide,
    cleanupExpiredSessions_spec (fun _ => true) (fun _ => false) 1860000
      [("old", ⟨0, 0⟩), ("new", ⟨1860000, 0⟩)] (by decide)⟩

/-- C7: sweeping twice at the same time with no intervening activity
removes sessions only in the first call — the second call removes zero
sessions and leaves the table exactly as the first call left it. -/
theorem cleanupExpiredSessions_sweep_twice (closeFails : String → Bool)
    (now : Int) (sessions : SessionTable) :
    (cleanupExpiredSessions closeFails now
        (cleanupExpiredSessions closeFails now sessions).table).removed = 0
    ∧ (cleanupExpiredSessions closeFails now
        (cleanupExpiredSessions closeFails now sessions).table).table
      = (cleanupExpiredSessions closeFails now sessions).table := by
  have hfilter :
      (cleanupExpiredSessions closeFails now sessions).table.filter (isExpired now)
        = [] :=
    List.filter_eq_nil_iff.mpr fun e he => by
      simp [mem_cleanup_table_not_expired closeFails now sessions he]
  constructor
  · show ((_ : SessionTable).filter (isExpired now) |>.map (·.1)).length = 0
    rw [hfilter]
    rfl
  · show (_ : SessionTable).filter _ = _
    rw [hfilter]
    simp

/-- C10: a session whose idle duration is exactly the 30-minute timeout
is retained by the sweep — removal requires the idle duration to be
strictly greater than the timeout. -/
theorem cleanupExpiredSessions_boundary_retained (closeFails : String → Bool)
    (now : Int) (sessions : SessionTable) {e : String × SessionRec}
    (hnd : (sessions.map Prod.fst).Nodup) (he : e ∈ sessions)
    (hb : now - e.2.lastActivity = SESSION_TIMEOUT_MS) :
    e ∈ (cleanupExpiredSessions closeFails now sessions).table := by
  rw [cleanup_table_eq_filter closeFails now sessions hnd]
  exact List.mem_filter.mpr ⟨he, by simp [isExpired, hb]⟩

/-- C10 witness: a single session last active at time 0, swept at
exactly the timeout (1 800 000 ms). -/
theorem cleanupExpiredSessions_boundary_retained_witness :
    ((([("a", ⟨0, 0⟩)] : SessionTable).map Prod.fst).Nodup)
    ∧ (("a", (⟨0, 0⟩ : SessionRec)) ∈ ([("a", ⟨0, 0⟩)] : SessionTable))
    ∧ ((1800000 : Int) - (0 : Int) = SESSION_TIMEOUT_MS)
    ∧ ("a", (⟨0, 0⟩ : SessionRec))
        ∈ (cleanupExpiredSessions (fun _ => false) 1800000
            [("a", ⟨0, 0⟩)]).table :=
  ⟨by decide, by decide, by decide,
    cleanupExpiredSessions_boundary_retained (fun _ => false) 1800000
      [("a", ⟨0, 0⟩)] (by decide) (by decide) (by decide)⟩

/-- C2: a request carrying a session id that is not in the session
table gets the 404 JSON-RPC-style error with fixed code `-32000` and
the reinitialize message, for every HTTP method and every transport
initialization outcome, and the session table is unchanged — no session
is ever created for that id. -/
theorem handleMcp_unknown_session (sessions : SessionTable) (sid : String)
    (method : String) (now : Int) (initOutcome : Option String)
    (hne : sid ≠ "") (hunk : lookupSession sessions sid = none) :
    handleMcp sessions (some sid) method now initOutcome =
      (.sessionNotFound 404 (-32000)
        "Session expired or not found. Please reinitialize.", sessions) := by
  simp [handleMcp, jsTruthySessionId, hne, hunk]

/-- C2 witness: a fabricated id `"ghost"` against a one-session table,
on a POST with a would-succeed initialization outcome. -/
theorem handleMcp_unknown_session_witness :
    ("ghost" ≠ "")
    ∧ (lookupSession [("live", ⟨5, 5⟩)] "ghost" = none)
    ∧ handleMcp [("live", ⟨5, 5⟩)] (some "ghost") "POST" 99 (some "fresh") =
        (.sessionNotFound 404 (-32000)
          "Session expired or not found. Please reinitialize.",
          [("live", ⟨5, 5⟩)]) :=
  ⟨by decide, by decide,
    handleMcp_unknown_session [("live", ⟨5, 5⟩)] "ghost" "POST" 99 (some "fresh")
      (by decide) (by decide)⟩

/-- C5: a POST request without a session id (initialization handshakes
are POSTs) builds a fresh server/transport pair; the generated id is
committed to the table only when the transport reports initialization
complete (`onsessioninitialized` fires), registered with
`createdAt = lastActivity = now`; if initialization does not complete
the table is left without the entry. -/
theorem handleMcp_new_session (sessions : SessionTable) (method : String)
    (now : Int) (newSessionId : String) (hm : method = "POST") :
    handleMcp sessions none method now (some newSessionId) =
      (.routedNew, sessions ++ [(newSessionId,
        { lastActivity := now, createdAt := now })])
    ∧ handleMcp sessions none method now none = (.routedNew, sessions) := by
  subst hm
  exact ⟨rfl, rfl⟩

/-- C5 witness: an empty table, a POST at time 7, with the transport
either confirming initialization (id `"s1"`) or not. -/
theorem handleMcp_new_session_witness :
    ("POST" = "POST")
    ∧ (handleMcp [] none "POST" 7 (some "s1") =
        (.routedNew, [("s1", { lastActivity := 7, createdAt := 7 })])
      ∧ handleMcp [] none "POST" 7 none = (.routedNew, [])) :=
  ⟨rfl, handleMcp_new_session [] "POST" 7 "s1" rfl⟩

/-- C4: the health probe is a total function into the three states —
it never throws — and classifies every network outcome as the spec
says: a 2xx response whose body's status field is `"healthy"` yields
`healthy`; a reachable response with any other body, 2xx or not,
yields `unhealthy`; a connection failure yields `not-running` exactly
when the follow-up bind test finds the port free, `unhealthy`
otherwise. -/
theorem checkMcpServerHealth_spec (st : Option String) (portFree : Bool) :
    (∀ outcome free, checkMcpServerHealth outcome free = .healthy
      ∨ checkMcpServerHealth outcome free = .unhealthy
      ∨ checkMcpServerHealth outcome free = .notRunning)
    ∧ checkMcpServerHealth (.response true (some "healthy")) portFree = .healthy
    ∧ (st ≠ some "healthy" →
        checkMcpServerHealth (.response true st) portFree = .unhealthy)
    ∧ checkMcpServerHealth (.response false st) portFree = .unhealthy
    ∧ checkMcpServerHealth .failure true = .notRunning
    ∧ checkMcpServerHealth .failure false = .unhealthy := by
  refine ⟨?_, rfl, fun h => ?_, rfl, rfl, rfl⟩
  · intro outcome free
    rcases outcome with ⟨ok, status⟩ | _
    · cases ok <;> by_cases h : status = some "healthy" <;>
        simp [checkMcpServerHealth, h]
    · cases free <;> simp [checkMcpServerHealth]
  · simp [checkMcpServerHealth, h]

/-- C4 witness: a 2xx response whose body reports `"degraded"`. -/
theorem checkMcpServerHealth_spec_witness :
    ((some "degraded" : Option String) ≠ some "healthy")
    ∧ checkMcpServerHealth (.response true (some "degraded")) false = .unhealthy :=
  ⟨by decide, (checkMcpServerHealth_spec (some "degraded") false).2.2.1 (by decide)⟩

/-- C6: in an HTTP-mode launch, a port-discovery exception does not
abort the launcher: it degrades to the discovery result
`{port: preferredPort, isExistingServer: false}` and the launcher
starts the HTTP server on the originally preferred port, for every
client mode and error message. -/
theorem httpModeLaunch_discovery_failure (clientMode : ClientMode)
    (preferredPort : Nat) (msg : String) (stdinIsTTY stdoutIsTTY : Option Bool) :
    httpModeLaunch clientMode preferredPort (.error msg) =
      .startHttpServer preferredPort
    ∧ mainLaunch .http clientMode preferredPort stdinIsTTY stdoutIsTTY (.error msg) =
      .startHttpServer preferredPort
    ∧ ({ port := preferredPort, isExistingServer := false } :
        PortDiscoveryResult).isExistingServer = false :=
  ⟨rfl, rfl, rfl⟩

/-- C8: code bug.  When neither standard stream is attached to an
interactive terminal, Node reports `isTTY = undefined` (`none`), never
`false`, so the `=== false` test in `detectStdioAvailability` fails and
auto mode resolves to http and runs the HTTP-mode port logic — the
opposite of the claimed (and specified) stdio resolution.  The last
three conjuncts evaluate the detection on the other combinations of the
two values Node actually produces (`some true` and `none`): auto mode
can never resolve to stdio. -/
theorem mainLaunch_auto_no_tty_bug :
    detectStdioAvailability none none = false
    ∧ resolveTransportMode .auto none none = .http
    ∧ (∀ (clientMode : ClientMode) (preferredPort : Nat)
        (outcome : Except String PortDiscoveryResult),
        mainLaunch .auto clientMode preferredPort none none outcome =
          httpModeLaunch clientMode preferredPort outcome)
    ∧ detectStdioAvailability (some true) (some true) = false
    ∧ resolveTransportMode .auto (some true) none = .http
    ∧ resolveTransportMode .auto none (some true) = .http :=
  ⟨rfl, rfl, fun _ _ _ => rfl, rfl, rfl, rfl⟩

/-- An environment in which port 0 hosts the only healthy server and
every port is free: it separates `discoverMcpPort` from the spec's
ordered algorithm when the preferred port is 0, because JavaScript
treats `if (preferredPort)` as false for 0. -/
def portEnvZeroHealthy : PortEnv :=
  { health := fun p => if p = 0 then .healthy else .notRunning
    free := fun _ => true }

/-- C1 counterexample: with `preferredPort = 0` probing healthy, the
spec's step (1) demands `{port: 0, isExistingServer: true}`, but the
code's truthiness guard skips steps (1) and (3) for port 0 and returns
the first free range port `{port: 8124, isExistingServer: false}`. -/
theorem discoverMcpPort_prefZero_counterexample :
    discoverMcpPort portEnvZeroHealthy (some 0) =
      .ok { port := 8124, isExistingServer := false }
    ∧ discoverSpecAlg portEnvZeroHealthy (some 0) =
      .ok { port := 0, isExistingServer := true, healthStatus := some .healthy }
    ∧ discoverMcpPort portEnvZeroHealthy (some 0) ≠
      discoverSpecAlg portEnvZeroHealthy (some 0) := by
  refine ⟨rfl, rfl, ?_⟩
  intro h
  rw [show discoverMcpPort portEnvZeroHealthy (some 0) =
        .ok { port := 8124, isExistingServer := false } from rfl,
      show discoverSpecAlg portEnvZeroHealthy (some 0) =
        .ok { port := 0, isExistingServer := true,
              healthStatus := some .healthy } from rfl] at h
  simp at h

/-- C1 amended: for every preferred port that is absent or nonzero —
the code's `if (preferredPort)` truthiness guard treats 0 like an
absent preferred port — and every environment of per-port health and
availability answers, `discoverMcpPort` follows exactly the spec's
ordered algorithm: (1) preferred healthy ⟹ `{preferredPort, true}`;
(2) first healthy port of 8124..8133 ascending ⟹ `{port, true}`;
(3) otherwise preferred free ⟹ `{preferredPort, false}`; (4) first
free port of the range ascending ⟹ `{port, false}`; (5) otherwise the
capacity error naming the range 8124-8133. -/
theorem discoverMcpPort_follows_spec (env : PortEnv)
    (preferredPort : Option Nat)
    (hnz : ∀ p, preferredPort = some p → p ≠ 0) :
    discoverMcpPort env preferredPort = discoverSpecAlg env preferredPort := by
  cases preferredPort with
  | none =>
      simp [discoverMcpPort, discoverSpecAlg, jsTruthyPort]
  | some p =>
      have hp : (p != 0) = true := by
        simpa using hnz p rfl
      simp only [discoverMcpPort, discoverSpecAlg, jsTruthyPort, hp,
        Option.getD_some, Bool.true_and, beq_iff_eq]

/-- C1 witness: a nonzero preferred port 8200 hosting the healthy
server, in an otherwise empty environment. -/
theorem discoverMcpPort_follows_spec_witness :
    (∀ p, (some 8200 : Option Nat) = some p → p ≠ 0)
    ∧ discoverMcpPort
        { health := fun q => if q = 8200 then .healthy else .notRunning
          free := fun _ => true } (some 8200)
      = discoverSpecAlg
        { health := fun q => if q = 8200 then .healthy else .notRunning
          free := fun _ => true } (some 8200) :=
  ⟨by intro p hp; cases hp; decide,
    discoverMcpPort_follows_spec _ (some 8200)
      (by intro p hp; cases hp; decide)⟩

/-- C9: whenever `discoverMcpPort` returns a result rather than
failing, the returned port is the preferred port or lies in the
inclusive range 8124..8133. -/
theorem discoverMcpPort_port_in_range (env : PortEnv)
    (preferredPort : Option Nat) (r : PortDiscoveryResult)
    (h : discoverMcpPort env preferredPort = .ok r) :
    preferredPort = some r.port ∨ (8124 ≤ r.port ∧ r.port ≤ 8133) := by
  have hrange : ∀ x ∈ mcpPortRange, 8124 ≤ x ∧ x ≤ 8133 := by decide
  have hpref : ∀ s : PortDiscoveryResult,
      jsTruthyPort preferredPort = true → s.port = preferredPort.getD 0 →
      preferredPort = some s.port := by
    intro s ht hs
    cases preferredPort with
    | none => cases ht
    | some p => rw [hs]; rfl
  simp only [discoverMcpPort] at h
  by_cases h1 :
      (jsTruthyPort preferredPort &&
        (env.health (preferredPort.getD 0) == Health.healthy)) = true
  · rw [if_pos h1] at h
    cases h
    exact Or.inl (hpref _ (Bool.and_eq_true _ _ ▸ h1).1 rfl)
  · rw [if_neg h1] at h
    cases hfind :
        mcpPortRange.find? (fun port => env.health port == Health.healthy) with
    | some port =>
        rw [hfind] at h
        cases h
        exact Or.inr (hrange port (List.mem_of_find?_eq_some hfind))
    | none =>
        rw [hfind] at h
        by_cases h2 :
            (jsTruthyPort preferredPort && env.free (preferredPort.getD 0)) = true
        · rw [if_pos h2] at h
          cases h
          exact Or.inl (hpref _ (Bool.and_eq_true _ _ ▸ h2).1 rfl)
        · rw [if_neg h2] at h
          cases hfind2 : mcpPortRange.find? (fun port => env.free port) with
          | some port =>
              rw [hfind2] at h
              cases h
              exact Or.inr (hrange port (List.mem_of_find?_eq_some hfind2))
          | none =>
              rw [hfind2] at h
              cases h

/-- C9 witness: an environment with no healthy server and everything
free, no preferred port: discovery returns port 8124, inside the
range. -/
theorem discoverMcpPort_port_in_range_witness :
    (discoverMcpPort { health := fun _ => .notRunning, free := fun _ => true }
        none = .ok { port := 8124, isExistingServer := false })
    ∧ ((none : Option Nat) =
        some ({ port := 8124, isExistingServer := false } :
          PortDiscoveryResult).port
      ∨ (8124 ≤ ({ port := 8124, isExistingServer := false } :
            PortDiscoveryResult).port
        ∧ ({ port := 8124, isExistingServer := false } :
            PortDiscoveryResult).port ≤ 8133)) :=
  ⟨rfl,
    discoverMcpPort_port_in_range
      { health := fun _ => .notRunning, free := fun _ => true } none
      { port := 8124, isExistingServer := false } rfl⟩

end McpPerplexityPro
